import Mathlib

/-!
Shallow embedding of the statistics / reconciliation core of the
`otpSellingMain` repository (an admin dashboard over a document store):

* `website/config/database.js` — `validateInput` utilities, `Database.getBotStats`,
  `Database.getDashboardData`, `Database.addServer`, `Database.deleteServer`,
  `Database.updateDashboardStats`, `Database.getFlags`;
* `website/api/sync-status.js` — `getSyncStatus`.

JavaScript numbers are modelled by `ℚ` (with `Option ℚ` where `NaN` can arise:
`none` stands for `NaN`); JavaScript values that may be absent or non-string are
modelled by the `JsValue` sum type; fallible operations return `Except String`.
Timestamps are modelled by `ℤ` epoch instants.  Wall-clock fields
(`createdAt` / `updatedAt` stamps on written documents) are omitted from record
models: no claim concerns them.
-/

/-- Model of a JavaScript value as received by the validation utilities:
a string, a number, a boolean, `null`, or `undefined`. -/
inductive JsValue where
  | str (s : String)
  | num (q : ℚ)
  | boolean (b : Bool)
  | null
  | undefined
deriving DecidableEq

/-- JavaScript `String.prototype.length` counts UTF-16 code units: code points
at or above `0x10000` count twice. -/
def utf16Len (s : String) : Nat :=
  (s.data.map (fun c => if c.toNat ≥ 0x10000 then 2 else 1)).sum

/-- The characters removed by `value.replace(/[<>"'&]/g, '')` in
`validateInput.string`: `<`, `>`, the double quote (34), the apostrophe (39)
and `&`. -/
def isStrippedChar (c : Char) : Bool :=
  c == '<' || c == '>' || c.toNat == 34 || c.toNat == 39 || c == '&'

namespace validateInput

/-- `validateInput.string(value, maxLength = 100)` (database.js:7-12):
returns `null` for non-string input or when the UTF-16 length exceeds
`maxLength`; otherwise returns the input with every stripped character
removed. -/
def string (value : JsValue) (maxLength : Nat := 100) : Option String :=
  match value with
  | .str s =>
      if utf16Len s > maxLength then none
      else some ⟨s.data.filter (fun c => !(isStrippedChar c))⟩
  | _ => none

/-- A hexadecimal digit, as matched by the character class `[0-9a-fA-F]`. -/
def isHexDigit (c : Char) : Bool :=
  ('0' ≤ c && c ≤ '9') || ('a' ≤ c && c ≤ 'f') || ('A' ≤ c && c ≤ 'F')

/-- `validateInput.objectId(value)` (database.js:21-25): rejects falsy or
non-string values, then requires the 24-character hexadecimal shape
`/^[0-9a-fA-F]{24}$/`. -/
def objectId (value : JsValue) : Option String :=
  match value with
  | .str s =>
      if s = "" then none
      else if s.length = 24 ∧ s.data.all isHexDigit then some s
      else none
  | _ => none

end validateInput

/-! ### Model of JavaScript `parseFloat` (returning `none` for `NaN`) -/

/-- White-space characters skipped by `parseFloat` before parsing. -/
def isJsWs (c : Char) : Bool :=
  c == ' ' || c == '\t' || c == '\n' || c == '\r'

/-- A decimal digit. -/
def isDecDigit (c : Char) : Bool := '0' ≤ c && c ≤ '9'

/-- Consume a maximal run of decimal digits, extending the accumulator;
returns the value so far, the number of digits consumed, and the rest. -/
def takeDigits (acc : Nat) : List Char → Nat × Nat × List Char
  | [] => (acc, 0, [])
  | c :: cs =>
      if isDecDigit c then
        let r := takeDigits (acc * 10 + (c.toNat - 48)) cs
        (r.1, r.2.1 + 1, r.2.2)
      else (acc, 0, c :: cs)

/-- Parse an unsigned decimal significand (`digits`, `digits.digits`, or
`.digits`).  Returns the significand read as one integer, the number of
fraction digits, and the rest; `none` when no digit is found (JS `NaN`). -/
def parseMant (cs : List Char) : Option (Nat × Nat × List Char) :=
  let ipart := takeDigits 0 cs
  match ipart.2.2 with
  | '.' :: rest2 =>
      -- keep accumulating after the dot: the result is ip·10^fn + fp
      let fpart := takeDigits ipart.1 rest2
      if ipart.2.1 = 0 ∧ fpart.2.1 = 0 then none
      else some (fpart.1, fpart.2.1, fpart.2.2)
  | _ => if ipart.2.1 = 0 then none else some (ipart.1, 0, ipart.2.2)

/-- Optional trailing exponent `e`/`E` with optional sign; it is part of the
parsed prefix only when at least one digit follows. -/
def parseExp (cs : List Char) : ℤ :=
  match cs with
  | c :: rest =>
      if c == 'e' || c == 'E' then
        match rest with
        | s :: rest2 =>
            if s == '+' then
              let e := takeDigits 0 rest2
              if e.2.1 = 0 then 0 else (e.1 : ℤ)
            else if s == '-' then
              let e := takeDigits 0 rest2
              if e.2.1 = 0 then 0 else -(e.1 : ℤ)
            else
              let e := takeDigits 0 rest
              if e.2.1 = 0 then 0 else (e.1 : ℤ)
        | [] => 0
      else 0
  | [] => 0

/-- Syntactic stage of `parseFloat`: skip leading white space, read an
optional sign, significand and exponent; the parsed number is
`significand · 10 ^ exponent`. -/
def parseSyn (s : String) : Option (ℤ × ℤ) :=
  let cs := s.data.dropWhile isJsWs
  match cs with
  | '+' :: rest => core 1 rest
  | '-' :: rest => core (-1) rest
  | _ => core 1 cs
where
  core (sign : ℤ) (cs2 : List Char) : Option (ℤ × ℤ) :=
    (parseMant cs2).map (fun m => (sign * (m.1 : ℤ), parseExp m.2.2 - (m.2.1 : ℤ)))

/-- JavaScript `parseFloat` on a string: the value of the longest valid
decimal-literal prefix; `none` models the `NaN` result.  (The `Infinity`
literal is not modelled; no input in this code base produces it.) -/
def jsParseFloat (s : String) : Option ℚ :=
  (parseSyn s).map (fun p => (p.1 : ℚ) * (10 : ℚ) ^ p.2)

/-! ### Model of `Number.prototype.toFixed(2)` -/

/-- The integer `n` chosen by `toFixed(2)`: the integer with `n / 100` closest
to the argument, the larger one on ties (ECMA-262), i.e. `⌊q·100 + 1/2⌋`. -/
def toFixed2Int (q : ℚ) : ℤ := ⌊q * 100 + 1 / 2⌋

/-- Two-digit zero-padded rendering of a value below 100. -/
def pad2 (n : Nat) : String :=
  if n < 10 then "0" ++ toString n else toString n

/-- String produced by `q.toFixed(2)`. -/
def toFixed2Str (q : ℚ) : String :=
  let n := toFixed2Int q
  (if n < 0 then "-" else "") ++ toString (n.natAbs / 100) ++ "." ++ pad2 (n.natAbs % 100)

example : parseSyn "5.01" = some (501, -2) := by decide
example : parseSyn "150" = some (150, 0) := by decide
example : parseSyn "abc" = none := by decide
example : parseSyn "  -1.5e2suffix" = some (-15, 1) := by decide

example : jsParseFloat "5.01" = some (501 / 100 : ℚ) := by
  have h : parseSyn "5.01" = some (501, -2) := by decide
  simp [jsParseFloat, h]; norm_num

example : toFixed2Str (1001 / 200 : ℚ) = "5.01" := by
  have h : toFixed2Int (1001 / 200 : ℚ) = 501 := by
    simp only [toFixed2Int]
    rw [show (1001 : ℚ) / 200 * 100 + 1 / 2 = 501 by norm_num]
    exact_mod_cast Int.floor_intCast 501
  simp only [toFixed2Str, h]
  decide

/-! ### Dashboard cache earnings (`Database.updateDashboardStats`, database.js:804-847)

A service document's fields used by the computation: `price` (a string when
present, `none` when the field is absent) and `users` (a numeric counter,
`none` when absent). -/

/-- A service record as read from the `services` collection. -/
structure ServiceDoc where
  price : Option String
  users : Option ℚ
deriving DecidableEq

/-- `service.users || 0`: an absent counter contributes `0`. -/
def usersOf (svc : ServiceDoc) : ℚ := svc.users.getD 0

/-- `String.prototype.replace('₹', '')`: remove the first occurrence of the
(one-character) pattern. -/
def removeFirstRupee : List Char → List Char
  | [] => []
  | c :: cs => if c = '₹' then cs else c :: removeFirstRupee cs

/-- `parseFloat(service.price?.replace('₹', '') || 0)` — an absent price gives
`undefined || 0 = 0`, an empty string after stripping is falsy and also gives
`0`; any other string is handed to `parseFloat`, whose `NaN` result is
modelled by `none`. -/
def priceOf (svc : ServiceDoc) : Option ℚ :=
  match svc.price with
  | none => some 0
  | some s =>
      let stripped : String := ⟨removeFirstRupee s.data⟩
      if stripped = "" then some 0 else jsParseFloat stripped

/-- JavaScript addition with `NaN` (= `none`) propagation. -/
def jsAdd : Option ℚ → Option ℚ → Option ℚ
  | some a, some b => some (a + b)
  | _, _ => none

/-- JavaScript multiplication with `NaN` (= `none`) propagation. -/
def jsMul : Option ℚ → Option ℚ → Option ℚ
  | some a, some b => some (a * b)
  | _, _ => none

/-- `services.reduce((sum, service) => { ... return sum + (price * users); }, 0)`
(database.js:819-823): the total-earnings accumulator, `none` when the
JavaScript value is `NaN`. -/
def totalEarnings (services : List ServiceDoc) : Option ℚ :=
  services.foldl (fun sum svc => jsAdd sum (jsMul (priceOf svc) (some (usersOf svc)))) (some 0)

/-! ### Transaction classification (`Database.getBotStats`, database.js:213-247) -/

/-- ASCII case folding: exactly the folding the regex flag `i` performs for
an ASCII pattern character in a non-Unicode-mode JavaScript regex. -/
def asciiLower (c : Char) : Char :=
  if 'A' ≤ c && c ≤ 'Z' then Char.ofNat (c.toNat + 32) else c

/-- Scan of a regex literal alternative over the subject: does `needle` occur
as a contiguous run starting at some position of `hay`? -/
def hasSub (needle : List Char) : List Char → Bool
  | [] => needle.isEmpty
  | c :: cs => needle.isPrefixOf (c :: cs) || hasSub needle cs

/-- The test `/number|purchase|bought/i.test(reason)`: one of the three
literal alternatives occurs in the subject, ASCII-case-insensitively. -/
def reasonMatches (reason : String) : Bool :=
  let hay := reason.data.map asciiLower
  hasSub "number".data hay || hasSub "purchase".data hay || hasSub "bought".data hay

/-- A transaction entry embedded in a user document.  `created_at` is `none`
when the field is absent (an absent field fails a `$gte` match). -/
structure TxDoc where
  type : String
  reason : String
  created_at : Option ℤ
deriving DecidableEq

/-- The `$match` filter of the number-purchase pipelines (database.js:217-221):
`type` equal to `"debit"` and `reason` matching `/number|purchase|bought/i`. -/
def isNumberPurchase (t : TxDoc) : Bool :=
  t.type == "debit" && reasonMatches t.reason

/-- `{$gte: bound}` on a possibly-absent timestamp field. -/
def matchGte (t : Option ℤ) (bound : ℤ) : Bool :=
  match t with
  | some v => decide (bound ≤ v)
  | none => false

example : reasonMatches "Bought a Number" = true := by decide
example : reasonMatches "refund" = false := by decide
example : isNumberPurchase ⟨"credit", "Bought a Number", none⟩ = false := by decide

/-! ### Bot statistics (`Database.getBotStats`, database.js:166-271) -/

/-- A user document in the `users` collection.  `balance` is `none` when the
field is absent (the `$sum` aggregation skips absent fields); `created_at` is
`none` when absent. -/
structure UserDoc where
  balance : Option ℚ
  created_at : Option ℤ
  transaction_history : List TxDoc
deriving DecidableEq

/-- The result record of `getBotStats`. -/
structure BotStats where
  totalUsers : Nat
  todaysUsers : Nat
  totalBalance : ℚ
  todaysTransactions : Nat
  totalTransactions : Nat
  todaysNumbersSold : Nat
  totalNumbersSold : Nat
deriving DecidableEq

/-- The all-zero result returned by the `catch` block (database.js:261-269). -/
def zeroStats : BotStats :=
  { totalUsers := 0, todaysUsers := 0, totalBalance := 0, todaysTransactions := 0,
    totalTransactions := 0, todaysNumbersSold := 0, totalNumbersSold := 0 }

/-- `$unwind: "$transaction_history"`: every user's embedded transaction list,
flattened into one stream. -/
def allTx (users : List UserDoc) : List TxDoc :=
  (users.map (fun u => u.transaction_history)).flatten

/-- `$group: {_id: null, totalBalance: {$sum: "$balance"}}`: the sum of all
present balances (absent balances are skipped by `$sum`). -/
def sumBalances (users : List UserDoc) : ℚ :=
  (users.map (fun u => u.balance.getD 0)).sum

/-- The pure portion of `getBotStats` on a successfully read `users`
collection.  An aggregation over an empty collection yields no group row and
no `$count` row; the source's `result.length > 0 ? ... : 0` guards are
mirrored by the row-list matches. -/
def computeBotStats (users : List UserDoc) (today yesterday : ℤ) : BotStats :=
  let totalUsers := users.length
  let todaysUsers := (users.filter (fun u => matchGte u.created_at today)).length
  let balanceRows := if users.isEmpty then ([] : List ℚ) else [sumBalances users]
  let totalBalance : ℚ := match balanceRows with
    | b :: _ => b
    | [] => 0
  let txs := allTx users
  let todaysTransactions := (txs.filter (fun t => matchGte t.created_at yesterday)).length
  let totalNumbersSold := (txs.filter isNumberPurchase).length
  let todaysNumbersSold :=
    (txs.filter (fun t => isNumberPurchase t && matchGte t.created_at yesterday)).length
  { totalUsers := totalUsers, todaysUsers := todaysUsers,
    totalBalance := (jsParseFloat (toFixed2Str totalBalance)).getD 0,
    todaysTransactions := todaysTransactions, totalTransactions := 0,
    todaysNumbersSold := todaysNumbersSold, totalNumbersSold := totalNumbersSold }

/-- The store as `getBotStats` sees it: the connection flag, the `users`
collection content, and a fault model saying whether the `i`-th store
operation issued by `getBotStats` fails (`getCollection` itself throws
whenever the connection was never established). -/
structure BotStore where
  connected : Bool
  users : List UserDoc
  queryFails : Nat → Bool

/-- Run the `i`-th store operation of `getBotStats`: it throws when the
connection is absent (the `getCollection` guard, database.js:93-96) and when
the fault model says this read fails. -/
def runQuery {α : Type} (st : BotStore) (i : Nat) (result : α) : Except String α :=
  if !st.connected then .error "Database not connected. Call connect() first."
  else if st.queryFails i then .error "query failed"
  else .ok result

/-- The body of the `try` block of `getBotStats` (database.js:167-257): six
store reads in source order — total count, today count, balance aggregation,
recent-transaction count, purchase count, today's purchase count — each of
which can throw. -/
def getBotStatsE (st : BotStore) (today yesterday : ℤ) : Except String BotStats :=
  match runQuery st 0 st.users.length with
  | .error e => .error e
  | .ok totalUsers =>
  match runQuery st 1 ((st.users.filter (fun u => matchGte u.created_at today)).length) with
  | .error e => .error e
  | .ok todaysUsers =>
  match runQuery st 2 (if st.users.isEmpty then ([] : List ℚ) else [sumBalances st.users]) with
  | .error e => .error e
  | .ok balanceRows =>
  let totalBalance : ℚ := match balanceRows with
    | b :: _ => b
    | [] => 0
  let txs := allTx st.users
  match runQuery st 3 ((txs.filter (fun t => matchGte t.created_at yesterday)).length) with
  | .error e => .error e
  | .ok todaysTransactions =>
  match runQuery st 4 ((txs.filter isNumberPurchase).length) with
  | .error e => .error e
  | .ok totalNumbersSold =>
  match runQuery st 5
      ((txs.filter (fun t => isNumberPurchase t && matchGte t.created_at yesterday)).length) with
  | .error e => .error e
  | .ok todaysNumbersSold =>
  .ok { totalUsers := totalUsers, todaysUsers := todaysUsers,
        totalBalance := (jsParseFloat (toFixed2Str totalBalance)).getD 0,
        todaysTransactions := todaysTransactions, totalTransactions := 0,
        todaysNumbersSold := todaysNumbersSold, totalNumbersSold := totalNumbersSold }

/-- `getBotStats`: the `try` body, with the `catch` block collapsing any
thrown error to the all-zero record.  The method itself never rejects. -/
def getBotStats (st : BotStore) (today yesterday : ℤ) : BotStats :=
  match getBotStatsE st today yesterday with
  | .ok s => s
  | .error _ => zeroStats

/-! ### Dashboard composition (`Database.getDashboardData`, database.js:107-163) -/

/-- A server record in the `servers` collection (`addServer` writes exactly
these fields, database.js:289-307; `id` models the document's `_id`). -/
structure ServerRec where
  id : String
  server_name : String
  country : String
  flag : String
  status : String
  description : String
deriving DecidableEq

/-- The dashboard snapshot assembled by `getDashboardData` (the two wall-clock
stamp fields are omitted). -/
structure DashStats where
  todaysEarnings : String
  totalEarnings : String
  todaysUsers : Nat
  totalUsers : Nat
  todaysSold : Nat
  totalSold : Nat
  topServices : List ServiceDoc
  serverCount : Nat
  serviceCount : Nat
deriving DecidableEq

/-- The fallback snapshot of the `catch` block (database.js:149-161). -/
def fallbackDashStats : DashStats :=
  { todaysEarnings := "₹0", totalEarnings := "₹0", todaysUsers := 0, totalUsers := 0,
    todaysSold := 0, totalSold := 0, topServices := [], serverCount := 0, serviceCount := 0 }

/-- BSON sort-key comparison for `sort({users: -1})`: an absent field sorts
below every number. -/
def bsonLt : Option ℚ → Option ℚ → Bool
  | none, none => false
  | none, some _ => true
  | some _, none => false
  | some a, some b => decide (a < b)

/-- Insert into a list already sorted by descending `users`. -/
def insertByUsersDesc (svc : ServiceDoc) : List ServiceDoc → List ServiceDoc
  | [] => [svc]
  | x :: xs => if bsonLt x.users svc.users then svc :: x :: xs else x :: insertByUsersDesc svc xs

/-- `find({}).sort({users: -1})` (database.js:116-119). -/
def sortByUsersDesc (services : List ServiceDoc) : List ServiceDoc :=
  services.foldr insertByUsersDesc []

/-- The store as `getDashboardData` sees it: the shared connection flag, the
collections it reads, the fault model for `getBotStats`'s own reads, and a
fault model for the three reads `getDashboardData` itself performs
(top-services query, server count, service count, in source order). -/
structure SiteStore where
  connected : Bool
  users : List UserDoc
  botQueryFails : Nat → Bool
  services : List ServiceDoc
  servers : List ServerRec
  dashQueryFails : Nat → Bool

/-- Run the `i`-th store read of `getDashboardData` itself. -/
def runDashQuery {α : Type} (st : SiteStore) (i : Nat) (result : α) : Except String α :=
  if !st.connected then .error "Database not connected. Call connect() first."
  else if st.dashQueryFails i then .error "query failed"
  else .ok result

/-- The `try` body of `getDashboardData` (database.js:108-143): first
`getBotStats()` — which has its own catch and never rejects — then the
top-3-services query, the server count and the service count. -/
def getDashboardDataE (st : SiteStore) (today yesterday : ℤ) : Except String DashStats :=
  let botStats := getBotStats ⟨st.connected, st.users, st.botQueryFails⟩ today yesterday
  match runDashQuery st 0 ((sortByUsersDesc st.services).take 3) with
  | .error e => .error e
  | .ok topServices =>
  match runDashQuery st 1 st.servers.length with
  | .error e => .error e
  | .ok serverCount =>
  match runDashQuery st 2 st.services.length with
  | .error e => .error e
  | .ok serviceCount =>
  .ok { todaysEarnings := "₹" ++ toFixed2Str botStats.totalBalance,
        totalEarnings := "₹" ++ toFixed2Str botStats.totalBalance,
        todaysUsers := botStats.todaysUsers, totalUsers := botStats.totalUsers,
        todaysSold := botStats.todaysNumbersSold, totalSold := botStats.totalNumbersSold,
        topServices := topServices, serverCount := serverCount, serviceCount := serviceCount }

/-- `getDashboardData`: the `try` body with the `catch` block collapsing any
thrown error to the fallback snapshot.  The method itself never rejects. -/
def getDashboardData (st : SiteStore) (today yesterday : ℤ) : DashStats :=
  match getDashboardDataE st today yesterday with
  | .ok s => s
  | .error _ => fallbackDashStats

/-! ### Sync status report (`getSyncStatus`, sync-status.js:29-121) -/

/-- The document store as the sync-status endpoint sees it: a per-collection
document count and a per-collection most-recent `last_sync` value (`none`
when the field is absent everywhere in that collection). -/
structure SyncDb where
  counts : String → Nat
  lastSync : String → Option ℤ

/-- One per-entity-kind entry of the report. -/
structure KindStatus where
  bot : Nat
  website : Nat
  synced : Bool
  last_sync : Option ℤ
deriving DecidableEq

/-- The `data` object of a successful report. -/
structure SyncData where
  users : KindStatus
  services : KindStatus
  servers : KindStatus
  overall_sync : Bool
deriving DecidableEq

/-- The report computation (sync-status.js:36-107).  `usersColl` is the
configured `MONGODB_COLLECTION` name (default `"users"`).  The "bot" services
and servers collections and the "website" services and servers collections
are obtained from the very same names `'services'` and `'servers'`; only the
users kind reads two distinct collections (`usersColl` vs
`'website_users'`). -/
def getSyncStatusData (usersColl : String) (db : SyncDb) : SyncData :=
  let botUsersCount := db.counts usersColl
  let botServicesCount := db.counts "services"
  let botServersCount := db.counts "servers"
  let websiteUsersCount := db.counts "website_users"
  let websiteServicesCount := db.counts "services"
  let websiteServersCount := db.counts "servers"
  let usersSynced := botUsersCount == websiteUsersCount
  let servicesSynced := botServicesCount == websiteServicesCount
  let serversSynced := botServersCount == websiteServersCount
  { users := ⟨botUsersCount, websiteUsersCount, usersSynced, db.lastSync "website_users"⟩,
    services := ⟨botServicesCount, websiteServicesCount, servicesSynced, db.lastSync "services"⟩,
    servers := ⟨botServersCount, websiteServersCount, serversSynced, db.lastSync "servers"⟩,
    overall_sync := usersSynced && servicesSynced && serversSynced }

/-- Outcome of the endpoint: the success object, or the fail-hard error
object (`success: false`) built in the catch block. -/
inductive SyncResult where
  | success (data : SyncData)
  | failure (errMsg : String)
deriving DecidableEq

/-- `getSyncStatus`: connection failure is caught and reported fail-hard;
otherwise the computed report is wrapped in a success object. -/
def getSyncStatus (connected : Bool) (usersColl : String) (db : SyncDb) : SyncResult :=
  if connected then .success (getSyncStatusData usersColl db)
  else .failure "MongoDB connection error"

/-! ### Server CRUD (`Database.addServer` / `Database.deleteServer`,
database.js:286-313 and 355-379) -/

/-- The raw `serverData` argument of `addServer`; each field is an arbitrary
JavaScript value. -/
structure ServerInput where
  server_name : JsValue
  country : JsValue
  flag : JsValue
  status : JsValue
  description : JsValue

/-- JavaScript `x || d` on a validated string: `null` and the empty string
are falsy and fall back to the default. -/
def jsOrDefault (x : Option String) (d : String) : String :=
  match x with
  | some s => if s = "" then d else s
  | none => d

/-- Truthiness test used by `if (!validatedData.server_name || ...)`:
a validated field fails it when it is `null` or the empty string. -/
def isFalsyStr (x : Option String) : Bool :=
  match x with
  | some s => s == ""
  | none => true

/-- `insertOne` gives the new document the driver-generated `_id` (`newId`;
the driver guarantees it is a fresh 24-character hexadecimal string, which the
theorems take as hypotheses).  `addServer` validates all five fields, throws
when a required one is falsy, then inserts.  Returns the new collection
content and `result.insertedId`. -/
def addServer (connected : Bool) (data : ServerInput) (newId : String)
    (servers : List ServerRec) : Except String (List ServerRec × String) :=
  let vname := validateInput.string data.server_name 100
  let vcountry := validateInput.string data.country 10
  let vflag := validateInput.string data.flag 50
  let vstatus := jsOrDefault (validateInput.string data.status 20) "active"
  let vdesc := jsOrDefault (validateInput.string data.description 500) ""
  if isFalsyStr vname || isFalsyStr vcountry || isFalsyStr vflag then
    .error "Invalid server data: server_name, country, and flag are required"
  else if !connected then .error "Database not connected. Call connect() first."
  else
    .ok (servers ++ [⟨newId, vname.getD "", vcountry.getD "", vflag.getD "", vstatus, vdesc⟩],
         newId)

/-- `deleteOne({_id})`: remove the first document with the given identifier;
returns the new collection content and `deletedCount`. -/
def deleteOneById (id : String) : List ServerRec → List ServerRec × Nat
  | [] => ([], 0)
  | r :: rs =>
      if r.id = id then (rs, 1)
      else
        let rest := deleteOneById id rs
        (r :: rest.1, rest.2)

/-- `deleteServer(id)`: validates the identifier shape with
`validateInput.objectId` (throwing on rejection), then issues the delete. -/
def deleteServer (connected : Bool) (id : String) (servers : List ServerRec) :
    Except String (List ServerRec × Nat) :=
  match validateInput.objectId (.str id) with
  | none => .error "Invalid server ID format"
  | some vid =>
      if !connected then .error "Database not connected. Call connect() first."
      else .ok (deleteOneById vid servers)

/-! ### Flags (`Database.getFlags`, database.js:850-880) -/

/-- A document of the `flags` collection (wall-clock stamps omitted). -/
structure FlagDoc where
  country : String
  flag : String
deriving DecidableEq

/-- The fixed default set seeded into an empty collection
(database.js:857-863). -/
def defaultFlags : List FlagDoc :=
  [⟨"India", "🇮🇳"⟩, ⟨"USA", "🇺🇸"⟩, ⟨"UK", "🇬🇧"⟩,
   ⟨"Canada", "🇨🇦"⟩, ⟨"Australia", "🇦🇺"⟩]

/-- JavaScript object property assignment `obj[k] = v`: overwrite an existing
key, otherwise append. -/
def upsertKey (m : List (String × String)) (k v : String) : List (String × String) :=
  if m.any (fun p => p.1 = k) then m.map (fun p => if p.1 = k then (k, v) else p)
  else m ++ [(k, v)]

/-- `flagsObject[flag.country] = flag.flag` over all documents
(database.js:870-873). -/
def buildFlagsObject (flags : List FlagDoc) : List (String × String) :=
  flags.foldl (fun m f => upsertKey m f.country f.flag) []

/-- `getFlags()`: read all flag documents; if the collection is empty, insert
the default set and use it.  Returns the new collection content, the
country-to-glyph mapping handed to the caller, and the number of documents
written by this call. -/
def getFlags (connected : Bool) (flags : List FlagDoc) :
    Except String (List FlagDoc × List (String × String) × Nat) :=
  if !connected then .error "Database not connected. Call connect() first."
  else if flags.isEmpty then
    .ok (defaultFlags, buildFlagsObject defaultFlags, defaultFlags.length)
  else .ok (flags, buildFlagsObject flags, 0)

/-! ## Helper lemmas -/

/-- The character set of the sanitizer, in propositional form. -/
def specStripped (c : Char) : Prop :=
  c = '<' ∨ c = '>' ∨ c.toNat = 34 ∨ c.toNat = 39 ∨ c = '&'

instance (c : Char) : Decidable (specStripped c) := by
  unfold specStripped; infer_instance

lemma isStrippedChar_iff (c : Char) : isStrippedChar c = true ↔ specStripped c := by
  simp only [isStrippedChar, specStripped, Bool.or_eq_true, beq_iff_eq]
  tauto

lemma not_isStrippedChar_eq (c : Char) :
    (!(isStrippedChar c)) = decide (¬ specStripped c) := by
  by_cases h : specStripped c
  · simp [h, (isStrippedChar_iff c).mpr h]
  · have hf : isStrippedChar c = false := by
      rw [← Bool.not_eq_true]
      exact fun hh => h ((isStrippedChar_iff c).mp hh)
    simp [h, hf]

/-! ## Claims -/

/-- C9: `validateInput.string` is total (a total Lean function by
construction, so it never throws); every non-string input yields `none`;
every string longer than `maxLength` (in UTF-16 units, as JavaScript's
`length`) yields `none`; every other string yields the input with every
occurrence of the characters `<`, `>`, `"`, `'` (codes 34 and 39) and `&`
removed. -/
theorem sanitizeString_spec (v : JsValue) (maxLength : Nat) :
    ((∀ s, v ≠ JsValue.str s) → validateInput.string v maxLength = none) ∧
    (∀ s, v = JsValue.str s → utf16Len s > maxLength →
        validateInput.string v maxLength = none) ∧
    (∀ s, v = JsValue.str s → utf16Len s ≤ maxLength →
        validateInput.string v maxLength =
          some ⟨s.data.filter (fun c => decide (¬ specStripped c))⟩) := by
  refine ⟨fun hns => ?_, fun s hs hlong => ?_, fun s hs hshort => ?_⟩
  · cases v with
    | str s => exact absurd rfl (hns s)
    | num q => rfl
    | boolean b => rfl
    | null => rfl
    | undefined => rfl
  · subst hs
    simp [validateInput.string, hlong]
  · subst hs
    have hle : ¬ utf16Len s > maxLength := by omega
    simp only [validateInput.string, hle, if_false]
    have hfc : s.data.filter (fun c => !(isStrippedChar c)) =
        s.data.filter (fun c => decide (¬ specStripped c)) :=
      List.filter_congr (fun c _ => not_isStrippedChar_eq c)
    rw [hfc]

/-- Witness for C9 at concrete inputs: a number is rejected, an over-long
string is rejected, and `"a<b>c"` is cleaned to `"abc"`. -/
theorem sanitizeString_spec_witness :
    validateInput.string (JsValue.num 3) 5 = none ∧
    validateInput.string (JsValue.str "abcdef") 5 = none ∧
    validateInput.string (JsValue.str "a<b>c") 5 = some "abc" := by
  refine ⟨(sanitizeString_spec (JsValue.num 3) 5).1 (fun s h => by cases h), ?_, ?_⟩
  · exact (sanitizeString_spec (JsValue.str "abcdef") 5).2.1 "abcdef" rfl (by decide)
  · have h := (sanitizeString_spec (JsValue.str "a<b>c") 5).2.2 "a<b>c" rfl (by decide)
    rw [h]
    decide

/-- C3: in the sync-status report the services kind and the servers kind are
reported as synced for every database state and every configured users
collection name, because both the "bot" and the "website" count of each of
those two kinds are counts of the same collection (`'services'`,
`'servers'`). -/
theorem syncStatus_services_servers_always_synced (usersColl : String) (db : SyncDb) :
    (getSyncStatusData usersColl db).services.synced = true ∧
    (getSyncStatusData usersColl db).servers.synced = true := by
  constructor <;> simp [getSyncStatusData]

/-- A database state whose canonical users count is 5 and mirrored users
count is 5. -/
def dbFiveFive : SyncDb :=
  ⟨fun c => if c = "users" then 5 else if c = "website_users" then 5 else 7, fun _ => none⟩

/-- A database state whose canonical users count is 5 and mirrored users
count is 4. -/
def dbFiveFour : SyncDb :=
  ⟨fun c => if c = "users" then 5 else if c = "website_users" then 4 else 7, fun _ => none⟩

/-- C4: every kind's `synced` flag is true exactly when its reported bot
count equals its reported website count; the overall flag is the conjunction
of the three per-kind flags; and on the concrete states with users counts
5/5 resp. 5/4 the users flag is `true` resp. `false`, the latter forcing the
overall flag to `false`. -/
theorem syncStatus_counts_spec (usersColl : String) (db : SyncDb) :
    ((getSyncStatusData usersColl db).users.synced = true ↔
        (getSyncStatusData usersColl db).users.bot =
          (getSyncStatusData usersColl db).users.website) ∧
    ((getSyncStatusData usersColl db).services.synced = true ↔
        (getSyncStatusData usersColl db).services.bot =
          (getSyncStatusData usersColl db).services.website) ∧
    ((getSyncStatusData usersColl db).servers.synced = true ↔
        (getSyncStatusData usersColl db).servers.bot =
          (getSyncStatusData usersColl db).servers.website) ∧
    ((getSyncStatusData usersColl db).overall_sync =
        ((getSyncStatusData usersColl db).users.synced &&
         (getSyncStatusData usersColl db).services.synced &&
         (getSyncStatusData usersColl db).servers.synced)) ∧
    (getSyncStatusData "users" dbFiveFive).users.bot = 5 ∧
    (getSyncStatusData "users" dbFiveFive).users.website = 5 ∧
    (getSyncStatusData "users" dbFiveFive).users.synced = true ∧
    (getSyncStatusData "users" dbFiveFour).users.bot = 5 ∧
    (getSyncStatusData "users" dbFiveFour).users.website = 4 ∧
    (getSyncStatusData "users" dbFiveFour).users.synced = false ∧
    (getSyncStatusData "users" dbFiveFour).overall_sync = false := by
  refine ⟨?_, ?_, ?_, rfl, by decide, by decide, by decide, by decide, by decide,
    by decide, by decide⟩
  · simp [getSyncStatusData]
  · simp [getSyncStatusData]
  · simp [getSyncStatusData]

/-- C8: `getFlags` on a non-empty collection returns the existing documents'
mapping, leaves the collection unchanged and writes nothing, so a second
call returns the identical mapping and also writes nothing; a call that
writes anything can only have happened on the empty collection, which it
seeds with the fixed five-entry default set. -/
theorem getFlags_idempotent (flags : List FlagDoc) (hne : flags ≠ []) :
    getFlags true flags = .ok (flags, buildFlagsObject flags, 0) ∧
    (∀ st1 m1 w1, getFlags true flags = .ok (st1, m1, w1) →
        getFlags true st1 = .ok (st1, m1, 0) ∧ w1 = 0) ∧
    (∀ f2 : List FlagDoc, ∀ st m w, getFlags true f2 = .ok (st, m, w) → 0 < w → f2 = []) ∧
    getFlags true [] = .ok (defaultFlags, buildFlagsObject defaultFlags, 5) := by
  obtain ⟨f, fs, rfl⟩ : ∃ f fs, flags = f :: fs := by
    cases flags with
    | nil => exact absurd rfl hne
    | cons f fs => exact ⟨f, fs, rfl⟩
  refine ⟨rfl, fun st1 m1 w1 h => ?_, fun f2 st m w h hw => ?_, rfl⟩
  · rw [show getFlags true (f :: fs) = .ok (f :: fs, buildFlagsObject (f :: fs), 0) from rfl]
      at h
    have h2 : f :: fs = st1 ∧ buildFlagsObject (f :: fs) = m1 ∧ 0 = w1 := by
      simpa using h
    obtain ⟨rfl, rfl, rfl⟩ := h2
    exact ⟨rfl, rfl⟩
  · cases f2 with
    | nil => rfl
    | cons g gs =>
        rw [show getFlags true (g :: gs) = .ok (g :: gs, buildFlagsObject (g :: gs), 0)
          from rfl] at h
        have h2 : g :: gs = st ∧ buildFlagsObject (g :: gs) = m ∧ 0 = w := by
          simpa using h
        obtain ⟨rfl, rfl, rfl⟩ := h2
        exact absurd hw (lt_irrefl 0)

/-- Witness for C8 at a concrete one-document collection. -/
theorem getFlags_idempotent_witness :
    getFlags true [⟨"India", "🇮🇳"⟩] =
      .ok ([⟨"India", "🇮🇳"⟩], buildFlagsObject [⟨"India", "🇮🇳"⟩], 0) :=
  (getFlags_idempotent [⟨"India", "🇮🇳"⟩] (by decide)).1

lemma hasSub_iff (needle hay : List Char) : hasSub needle hay = true ↔ needle <:+: hay := by
  induction hay with
  | nil => simp [hasSub, List.isEmpty_iff, List.infix_nil]
  | cons c cs ih =>
      simp only [hasSub, Bool.or_eq_true, List.isPrefixOf_iff_prefix, ih, List.infix_cons_iff]

/-- C6: a transaction entry is classified as a number purchase exactly when
its `type` is `"debit"` and its reason, folded to lower case the way the
regex flag `i` folds an ASCII pattern, contains one of the runs `number`,
`purchase`, `bought`; in particular every reason containing `number`
case-insensitively makes a debit entry a purchase while a credit entry with
the identical reason is never one. -/
theorem numberPurchase_classification :
    (∀ t : TxDoc, isNumberPurchase t = true ↔
        (t.type = "debit" ∧
          ("number".data <:+: t.reason.data.map asciiLower ∨
           "purchase".data <:+: t.reason.data.map asciiLower ∨
           "bought".data <:+: t.reason.data.map asciiLower))) ∧
    (∀ reason : String, ∀ ts : Option ℤ,
        "number".data <:+: reason.data.map asciiLower →
        isNumberPurchase ⟨"debit", reason, ts⟩ = true ∧
        isNumberPurchase ⟨"credit", reason, ts⟩ = false) := by
  constructor
  · intro t
    simp only [isNumberPurchase, Bool.and_eq_true, beq_iff_eq, reasonMatches,
      Bool.or_eq_true, hasSub_iff]
    tauto
  · intro reason ts hnum
    have h1 : hasSub "number".data (reason.data.map asciiLower) = true :=
      (hasSub_iff _ _).mpr hnum
    have hcd : ("credit" == "debit") = false := by decide
    constructor
    · simp [isNumberPurchase, reasonMatches, h1]
    · simp [isNumberPurchase, hcd]

/-- Witness for C6 at the concrete reason `"OTP Number sold"` (which contains
`"Number"`): the debit entry is counted, the credit entry is not. -/
theorem numberPurchase_classification_witness :
    isNumberPurchase ⟨"debit", "OTP Number sold", none⟩ = true ∧
    isNumberPurchase ⟨"credit", "OTP Number sold", none⟩ = false :=
  numberPurchase_classification.2 "OTP Number sold" none (by decide)

lemma getBotStatsE_all_ok (st : BotStore) (t y : ℤ) (hc : st.connected = true)
    (hq : ∀ i, i < 6 → st.queryFails i = false) :
    getBotStatsE st t y = .ok (computeBotStats st.users t y) := by
  have h0 := hq 0 (by omega)
  have h1 := hq 1 (by omega)
  have h2 := hq 2 (by omega)
  have h3 := hq 3 (by omega)
  have h4 := hq 4 (by omega)
  have h5 := hq 5 (by omega)
  simp [getBotStatsE, computeBotStats, runQuery, hc, h0, h1, h2, h3, h4, h5]

lemma getBotStats_cases (st : BotStore) (t y : ℤ) :
    getBotStats st t y = zeroStats ∨
      (st.connected = true ∧ (∀ i, i < 6 → st.queryFails i = false) ∧
        getBotStats st t y = computeBotStats st.users t y) := by
  by_cases hc : st.connected = true
  case neg =>
    left
    have hcf : st.connected = false := by revert hc; cases st.connected <;> simp
    simp [getBotStats, getBotStatsE, runQuery, hcf]
  by_cases h0 : st.queryFails 0 = true
  case pos => left; simp [getBotStats, getBotStatsE, runQuery, hc, h0]
  by_cases h1 : st.queryFails 1 = true
  case pos => left; simp [getBotStats, getBotStatsE, runQuery, hc, h0, h1]
  by_cases h2 : st.queryFails 2 = true
  case pos => left; simp [getBotStats, getBotStatsE, runQuery, hc, h0, h1, h2]
  by_cases h3 : st.queryFails 3 = true
  case pos => left; simp [getBotStats, getBotStatsE, runQuery, hc, h0, h1, h2, h3]
  by_cases h4 : st.queryFails 4 = true
  case pos => left; simp [getBotStats, getBotStatsE, runQuery, hc, h0, h1, h2, h3, h4]
  by_cases h5 : st.queryFails 5 = true
  case pos => left; simp [getBotStats, getBotStatsE, runQuery, hc, h0, h1, h2, h3, h4, h5]
  simp only [Bool.not_eq_true] at h0 h1 h2 h3 h4 h5
  right
  have hq : ∀ i, i < 6 → st.queryFails i = false := by
    intro i hi
    interval_cases i <;> assumption
  refine ⟨hc, hq, ?_⟩
  simp only [getBotStats, getBotStatsE_all_ok st t y hc hq]

lemma getBotStats_zero_of_fail (st : BotStore) (t y : ℤ)
    (h : st.connected = false ∨ ∃ i, i < 6 ∧ st.queryFails i = true) :
    getBotStats st t y = zeroStats := by
  rcases getBotStats_cases st t y with hres | ⟨hc, hq, _⟩
  · exact hres
  · rcases h with hf | ⟨i, hi, hf⟩
    · rw [hc] at hf; cases hf
    · rw [hq i hi] at hf; cases hf

/-- C2: `getBotStats` is fail-soft: whenever the connection was never
established, or any one of its six store reads fails, the result is the
all-zero record; and for every store the result is always either the
all-zero record or the full record computed from the `users` collection —
never anything in between, and no error escapes (the model is a total
function). -/
theorem getBotStats_failSoft (st : BotStore) (today yesterday : ℤ)
    (hfail : st.connected = false ∨ ∃ i, i < 6 ∧ st.queryFails i = true) :
    getBotStats st today yesterday = zeroStats ∧
    ∀ st2 : BotStore, ∀ t y : ℤ,
      getBotStats st2 t y = zeroStats ∨
        getBotStats st2 t y = computeBotStats st2.users t y := by
  refine ⟨getBotStats_zero_of_fail st today yesterday hfail, fun st2 t y => ?_⟩
  rcases getBotStats_cases st2 t y with h | ⟨_, _, h⟩
  · exact Or.inl h
  · exact Or.inr h

/-- Witness for C2: a store whose connection was never established yields the
all-zero record. -/
theorem getBotStats_failSoft_witness :
    getBotStats ⟨false, [], fun _ => false⟩ 0 0 = zeroStats :=
  (getBotStats_failSoft ⟨false, [], fun _ => false⟩ 0 0 (Or.inl rfl)).1

lemma toFixed2Int_five005 : toFixed2Int (1001 / 200 : ℚ) = 501 := by
  simp only [toFixed2Int]
  rw [show (1001 : ℚ) / 200 * 100 + 1 / 2 = 501 by norm_num]
  exact_mod_cast Int.floor_intCast 501

lemma toFixed2Str_five005 : toFixed2Str (1001 / 200 : ℚ) = "5.01" := by
  simp only [toFixed2Str, toFixed2Int_five005]
  decide

lemma jsParseFloat_fiveOhOne : jsParseFloat "5.01" = some (501 / 100 : ℚ) := by
  have h : parseSyn "5.01" = some (501, -2) := by decide
  simp [jsParseFloat, h]
  norm_num

/-- The store of the balance scenario: exactly three users with balances
10.005, 0 and −5 (no transactions), connection up, no read faults.  The
balances are modelled by the exact rationals the decimal literals denote. -/
def balStore : BotStore :=
  ⟨true,
   [⟨some (2001 / 200), none, []⟩, ⟨some 0, none, []⟩, ⟨some (-5), none, []⟩],
   fun _ => false⟩

lemma balStore_eval :
    getBotStats balStore 0 0 = ⟨3, 0, 501 / 100, 0, 0, 0, 0⟩ := by
  have hq : ∀ i, i < 6 → balStore.queryFails i = false := fun i _ => rfl
  simp only [getBotStats, getBotStatsE_all_ok balStore 0 0 rfl hq]
  have hsum : sumBalances
      [⟨some (2001 / 200), none, []⟩, ⟨some 0, none, []⟩, ⟨some (-5), none, []⟩] =
        1001 / 200 := by
    simp [sumBalances]
    norm_num
  simp [computeBotStats, balStore, matchGte, allTx, hsum, toFixed2Str_five005,
    jsParseFloat_fiveOhOne]

/-- C10 counterexample: on exactly three users with balances 10.005, 0 and
−5, `getBotStats` reports `totalBalance = 5.01`, not the claimed `5.00`.
In exact arithmetic the balance sum is 5.005, and `toFixed(2)` picks the
larger integer on a tie (ECMA-262), giving `"5.01"`; IEEE-754 evaluation
agrees, since the double nearest 10.005 is slightly above it, making the
double sum strictly greater than 5.005 and `toFixed(2)` again `"5.01"`. -/
theorem balScenario_totalBalance_cex :
    (getBotStats balStore 0 0).totalUsers = 3 ∧
    (getBotStats balStore 0 0).totalBalance ≠ 5 := by
  rw [balStore_eval]
  exact ⟨rfl, by norm_num⟩

/-- C10 amended: on the three users with balances 10.005, 0 and −5,
`getBotStats` returns `totalUsers = 3` and `totalBalance = 5.01` (the
balance sum rounded to 2 decimals rounds the 5.005 tie up). -/
theorem balScenario_totalBalance :
    (getBotStats balStore 0 0).totalBalance = 501 / 100 ∧
    (getBotStats balStore 0 0).totalUsers = 3 := by
  rw [balStore_eval]
  exact ⟨rfl, rfl⟩

lemma jsParseFloat_onefifty : jsParseFloat "150" = some 150 := by
  have h : parseSyn "150" = some (150, 0) := by decide
  simp [jsParseFloat, h]

lemma priceOf_rupee150 : priceOf ⟨some "₹150", some 4⟩ = some 150 := by
  simp only [priceOf]
  rw [show (⟨removeFirstRupee "₹150".data⟩ : String) = "150" from by decide]
  rw [if_neg (by decide : ¬("150" : String) = "")]
  exact jsParseFloat_onefifty

lemma totalEarnings_foldl (services : List ServiceDoc) : ∀ acc : ℚ,
    (∀ svc ∈ services, priceOf svc ≠ none) →
    services.foldl (fun sum svc => jsAdd sum (jsMul (priceOf svc) (some (usersOf svc))))
        (some acc) =
      some (acc + (services.map (fun svc => (priceOf svc).getD 0 * usersOf svc)).sum) := by
  induction services with
  | nil =>
      intro acc h
      simp
  | cons s ss ih =>
      intro acc h
      obtain ⟨p, hp⟩ := Option.ne_none_iff_exists'.mp (h s (List.mem_cons_self s ss))
      rw [List.foldl_cons,
        show jsAdd (some acc) (jsMul (priceOf s) (some (usersOf s))) =
          some (acc + p * usersOf s) from by rw [hp]; rfl,
        ih _ (fun svc hm => h svc (List.mem_cons_of_mem s hm))]
      simp only [hp, Option.getD_some, List.map_cons, List.sum_cons, Option.some.injEq]
      ring

/-- C1 counterexample: on a list holding the claim's own well-formed service
(price `"₹150"`, 4 users) together with one service whose price string is
malformed (`"abc"`), the claim requires a total of 600 (the malformed price
contributing 0, the rest unaffected); the code's accumulator is `NaN`
(`sum + NaN·users` poisons the entire reduction), modelled as `none`. -/
theorem totalEarnings_nan_cex :
    totalEarnings [⟨some "₹150", some 4⟩, ⟨some "abc", some 1⟩] = none ∧
    (none : Option ℚ) ≠ some 600 := by
  exact ⟨rfl, by decide⟩

/-- C1 amended: when every service's price parses (after stripping the first
`₹` occurrence; an absent or empty price counts as 0), total earnings is
exactly Σ price·users over the services; an absent price yields price 0;
and the concrete service with price `"₹150"` and 4 users alone yields
exactly 600.  (Per the counterexample, a single malformed price instead
turns the whole total into NaN.) -/
theorem totalEarnings_spec (services : List ServiceDoc)
    (h : ∀ svc ∈ services, priceOf svc ≠ none) :
    totalEarnings services =
      some ((services.map (fun svc => (priceOf svc).getD 0 * usersOf svc)).sum) ∧
    (∀ u : Option ℚ, priceOf ⟨none, u⟩ = some 0) ∧
    totalEarnings [⟨some "₹150", some 4⟩] = some 600 := by
  refine ⟨?_, fun u => rfl, ?_⟩
  · have := totalEarnings_foldl services 0 h
    simpa [totalEarnings] using this
  · simp only [totalEarnings, List.foldl_cons, List.foldl_nil, priceOf_rupee150, usersOf,
      Option.getD_some, jsMul, jsAdd, Option.some.injEq]
    norm_num

/-- Witness for C1 (amended) at the concrete one-service list of the
scenario: `"₹150"` with 4 users gives exactly 600. -/
theorem totalEarnings_spec_witness :
    totalEarnings [⟨some "₹150", some 4⟩] = some 600 :=
  (totalEarnings_spec [⟨some "₹150", some 4⟩]
      (by
        intro svc hm
        rw [List.mem_singleton] at hm
        subst hm
        rw [priceOf_rupee150]
        exact fun hh => Option.noConfusion hh)).2.2

lemma deleteOneById_not_mem (id : String) (servers : List ServerRec)
    (h : ∀ r ∈ servers, r.id ≠ id) : deleteOneById id servers = (servers, 0) := by
  induction servers with
  | nil => rfl
  | cons r rs ih =>
      have hr : ¬ r.id = id := h r (List.mem_cons_self r rs)
      simp only [deleteOneById, if_neg hr, ih (fun x hx => h x (List.mem_cons_of_mem r hx))]

lemma deleteOneById_append_fresh (id : String) (servers : List ServerRec) (rec2 : ServerRec)
    (hrec : rec2.id = id) (h : ∀ r ∈ servers, r.id ≠ id) :
    deleteOneById id (servers ++ [rec2]) = (servers, 1) := by
  induction servers with
  | nil => simp [deleteOneById, hrec]
  | cons r rs ih =>
      have hr : ¬ r.id = id := h r (List.mem_cons_self r rs)
      have ih2 := ih (fun x hx => h x (List.mem_cons_of_mem r hx))
      simp only [List.cons_append, deleteOneById, if_neg hr, List.append_eq, ih2]

/-- C7 counterexample: the input name `"<>"` is accepted by the validation
utility (it returns the cleaned string, here `""`, not the absence value),
as are country `"IN"` and flag `"🇮🇳"`; yet `addServer` rejects the input
with the validation error, because the cleaned empty string is falsy —
so an input whose required fields are all accepted by the validator can
still fail to insert, contradicting the claim. -/
theorem addServer_cleanedEmpty_cex :
    validateInput.string (JsValue.str "<>") 100 = some "" ∧
    validateInput.string (JsValue.str "IN") 10 = some "IN" ∧
    validateInput.string (JsValue.str "🇮🇳") 50 = some "🇮🇳" ∧
    addServer true
        ⟨JsValue.str "<>", JsValue.str "IN", JsValue.str "🇮🇳",
         JsValue.undefined, JsValue.undefined⟩ "0123456789abcdef01234567" [] =
      .error "Invalid server data: server_name, country, and flag are required" := by
  exact ⟨by decide, by decide, by decide, rfl⟩

/-- C7 amended: for every server-add input whose name, country and flag are
accepted by the validation utility *with non-empty cleaned values*, and
every driver-generated identifier of valid shape that is fresh for the
collection, `addServer` inserts one record and returns that identifier;
`deleteServer` on the returned identifier then deletes exactly 1 record,
restoring the original collection, and repeating the same delete deletes 0;
an input with any required field rejected by the validator fails with the
validation error (and no insert happens — the error return leaves no new
state).  (Per the counterexample, an accepted field whose cleaned value is
empty is also rejected.) -/
theorem addServer_deleteServer_spec (data : ServerInput) (newId : String)
    (servers : List ServerRec)
    (hname : ∃ s, validateInput.string data.server_name 100 = some s ∧ s ≠ "")
    (hcountry : ∃ s, validateInput.string data.country 10 = some s ∧ s ≠ "")
    (hflag : ∃ s, validateInput.string data.flag 50 = some s ∧ s ≠ "")
    (hid : validateInput.objectId (.str newId) = some newId)
    (hfresh : ∀ r ∈ servers, r.id ≠ newId) :
    (∃ st1 : List ServerRec,
        addServer true data newId servers = .ok (st1, newId) ∧
        deleteServer true newId st1 = .ok (servers, 1) ∧
        deleteServer true newId servers = .ok (servers, 0)) ∧
    (∀ d2 : ServerInput, ∀ nid : String, ∀ st : List ServerRec,
        (validateInput.string d2.server_name 100 = none ∨
         validateInput.string d2.country 10 = none ∨
         validateInput.string d2.flag 50 = none) →
        addServer true d2 nid st =
          .error "Invalid server data: server_name, country, and flag are required") := by
  constructor
  · obtain ⟨s1, hp1, hne1⟩ := hname
    obtain ⟨s2, hp2, hne2⟩ := hcountry
    obtain ⟨s3, hp3, hne3⟩ := hflag
    have hf1 : isFalsyStr (validateInput.string data.server_name 100) = false := by
      rw [hp1]; simp [isFalsyStr, hne1]
    have hf2 : isFalsyStr (validateInput.string data.country 10) = false := by
      rw [hp2]; simp [isFalsyStr, hne2]
    have hf3 : isFalsyStr (validateInput.string data.flag 50) = false := by
      rw [hp3]; simp [isFalsyStr, hne3]
    refine ⟨servers ++
        [⟨newId, (validateInput.string data.server_name 100).getD "",
          (validateInput.string data.country 10).getD "",
          (validateInput.string data.flag 50).getD "",
          jsOrDefault (validateInput.string data.status 20) "active",
          jsOrDefault (validateInput.string data.description 500) ""⟩], ?_, ?_, ?_⟩
    · simp [addServer, hf1, hf2, hf3]
    · have hd := deleteOneById_append_fresh newId servers
        ⟨newId, (validateInput.string data.server_name 100).getD "",
          (validateInput.string data.country 10).getD "",
          (validateInput.string data.flag 50).getD "",
          jsOrDefault (validateInput.string data.status 20) "active",
          jsOrDefault (validateInput.string data.description 500) ""⟩ rfl hfresh
      simp [deleteServer, hid, hd]
    · simp [deleteServer, hid, deleteOneById_not_mem newId servers hfresh]
  · intro d2 nid st hrej
    rcases hrej with hr | hr | hr <;> simp [addServer, hr, isFalsyStr]

/-- Witness for C7 (amended) at a concrete valid input and a concrete fresh
identifier on the empty collection. -/
theorem addServer_deleteServer_spec_witness :
    ∃ st1 : List ServerRec,
      addServer true ⟨JsValue.str "Main", JsValue.str "IN", JsValue.str "🇮🇳",
          JsValue.undefined, JsValue.undefined⟩ "0123456789abcdef01234567" [] =
        .ok (st1, "0123456789abcdef01234567") ∧
      deleteServer true "0123456789abcdef01234567" st1 = .ok ([], 1) ∧
      deleteServer true "0123456789abcdef01234567" [] = .ok ([], 0) :=
  (addServer_deleteServer_spec
      ⟨JsValue.str "Main", JsValue.str "IN", JsValue.str "🇮🇳",
       JsValue.undefined, JsValue.undefined⟩ "0123456789abcdef01234567" []
      ⟨"Main", by decide, by decide⟩ ⟨"IN", by decide, by decide⟩
      ⟨"🇮🇳", by decide, by decide⟩ (by decide)
      (fun r hr => absurd hr (List.not_mem_nil r))).1

/-- The snapshot assembled on the success path of `getDashboardData`
(database.js:129-141). -/
def dashOk (st : SiteStore) (t y : ℤ) : DashStats :=
  let botStats := getBotStats ⟨st.connected, st.users, st.botQueryFails⟩ t y
  { todaysEarnings := "₹" ++ toFixed2Str botStats.totalBalance,
    totalEarnings := "₹" ++ toFixed2Str botStats.totalBalance,
    todaysUsers := botStats.todaysUsers, totalUsers := botStats.totalUsers,
    todaysSold := botStats.todaysNumbersSold, totalSold := botStats.totalNumbersSold,
    topServices := (sortByUsersDesc st.services).take 3,
    serverCount := st.servers.length, serviceCount := st.services.length }

lemma getDashboardData_ok (st : SiteStore) (t y : ℤ) (hc : st.connected = true)
    (hq : ∀ i, i < 3 → st.dashQueryFails i = false) :
    getDashboardData st t y = dashOk st t y := by
  have h0 := hq 0 (by omega)
  have h1 := hq 1 (by omega)
  have h2 := hq 2 (by omega)
  simp [getDashboardData, getDashboardDataE, dashOk, runDashQuery, hc, h0, h1, h2]

lemma getDashboardData_fallback_of_fail (st : SiteStore) (t y : ℤ)
    (h : st.connected = false ∨ ∃ i, i < 3 ∧ st.dashQueryFails i = true) :
    getDashboardData st t y = fallbackDashStats := by
  by_cases hc : st.connected = true
  case neg =>
    have hcf : st.connected = false := by revert hc; cases st.connected <;> simp
    simp [getDashboardData, getDashboardDataE, runDashQuery, hcf]
  by_cases h0 : st.dashQueryFails 0 = true
  case pos => simp [getDashboardData, getDashboardDataE, runDashQuery, hc, h0]
  by_cases h1 : st.dashQueryFails 1 = true
  case pos => simp [getDashboardData, getDashboardDataE, runDashQuery, hc, h0, h1]
  by_cases h2 : st.dashQueryFails 2 = true
  case pos => simp [getDashboardData, getDashboardDataE, runDashQuery, hc, h0, h1, h2]
  exfalso
  rcases h with hf | ⟨i, hi, hf⟩
  · rw [hc] at hf; cases hf
  · interval_cases i
    · exact h0 hf
    · exact h1 hf
    · exact h2 hf

lemma getDashboardData_total (st : SiteStore) (t y : ℤ) :
    getDashboardData st t y = fallbackDashStats ∨
      getDashboardData st t y = dashOk st t y := by
  by_cases hc : st.connected = true
  case neg =>
    have hcf : st.connected = false := by revert hc; cases st.connected <;> simp
    exact Or.inl (getDashboardData_fallback_of_fail st t y (Or.inl hcf))
  by_cases h0 : st.dashQueryFails 0 = true
  case pos =>
    exact Or.inl (getDashboardData_fallback_of_fail st t y (Or.inr ⟨0, by omega, h0⟩))
  by_cases h1 : st.dashQueryFails 1 = true
  case pos =>
    exact Or.inl (getDashboardData_fallback_of_fail st t y (Or.inr ⟨1, by omega, h1⟩))
  by_cases h2 : st.dashQueryFails 2 = true
  case pos =>
    exact Or.inl (getDashboardData_fallback_of_fail st t y (Or.inr ⟨2, by omega, h2⟩))
  simp only [Bool.not_eq_true] at h0 h1 h2
  refine Or.inr (getDashboardData_ok st t y hc ?_)
  intro i hi
  interval_cases i <;> assumption

lemma toFixed2Str_zero : toFixed2Str 0 = "0.00" := by
  have h : toFixed2Int (0 : ℚ) = 0 := by
    simp only [toFixed2Int]
    rw [show (0 : ℚ) * 100 + 1 / 2 = 1 / 2 by norm_num, Int.floor_eq_zero_iff]
    rw [Set.mem_Ico]
    norm_num
  simp only [toFixed2Str, h]
  decide

/-- A store where `getBotStats`'s first read fails but the dashboard's own
three reads succeed: connection up, one service in the `services`
collection. -/
def dashDegradedStore : SiteStore :=
  ⟨true, [], fun i => i == 0, [⟨some "₹150", some 4⟩], [], fun _ => false⟩

/-- C5 counterexample: on a store whose users read fails (so
`computeUserMetrics` fails internally and yields the all-zero metrics) while
the services reads succeed, the composed snapshot carries the all-zero
metrics but a NON-empty top-services list — not the empty list the claim
requires. -/
theorem dashboard_degraded_topServices_cex :
    dashDegradedStore.botQueryFails 0 = true ∧
    getBotStats ⟨dashDegradedStore.connected, dashDegradedStore.users,
        dashDegradedStore.botQueryFails⟩ 0 0 = zeroStats ∧
    (getDashboardData dashDegradedStore 0 0).totalUsers = 0 ∧
    (getDashboardData dashDegradedStore 0 0).topServices = [⟨some "₹150", some 4⟩] ∧
    (getDashboardData dashDegradedStore 0 0).topServices ≠ [] := by
  have hzero : getBotStats ⟨dashDegradedStore.connected, dashDegradedStore.users,
      dashDegradedStore.botQueryFails⟩ 0 0 = zeroStats :=
    getBotStats_zero_of_fail _ 0 0 (Or.inr ⟨0, by omega, rfl⟩)
  have hok := getDashboardData_ok dashDegradedStore 0 0 rfl (fun i _ => rfl)
  rw [hok]
  refine ⟨rfl, hzero, ?_, ?_, ?_⟩
  · simp [dashOk, hzero, zeroStats]
  · simp [dashOk, sortByUsersDesc, insertByUsersDesc, dashDegradedStore]
  · simp [dashOk, sortByUsersDesc, insertByUsersDesc, dashDegradedStore]

/-- C5 amended: `getDashboardData` never throws — it always returns either
the fallback snapshot or the success snapshot; whenever any of its OWN three
reads fails (or the connection is down) it returns the full fallback
(all-zero metrics and empty top-services); but whenever its own reads
succeed while `computeUserMetrics` failed internally, the snapshot carries
the all-zero metric fields while `topServices`, `serverCount` and
`serviceCount` are still the normally computed values (so the
empty-top-services substitution of the claim happens only for
`getDashboardData`'s own failures). -/
theorem getDashboardData_degradation (st : SiteStore) (today yesterday : ℤ) :
    (getDashboardData st today yesterday = fallbackDashStats ∨
       getDashboardData st today yesterday = dashOk st today yesterday) ∧
    ((st.connected = false ∨ ∃ i, i < 3 ∧ st.dashQueryFails i = true) →
       getDashboardData st today yesterday = fallbackDashStats) ∧
    ((st.connected = true ∧ (∀ i, i < 3 → st.dashQueryFails i = false) ∧
        (∃ i, i < 6 ∧ st.botQueryFails i = true)) →
       (getDashboardData st today yesterday).totalUsers = 0 ∧
       (getDashboardData st today yesterday).todaysUsers = 0 ∧
       (getDashboardData st today yesterday).totalSold = 0 ∧
       (getDashboardData st today yesterday).todaysSold = 0 ∧
       (getDashboardData st today yesterday).totalEarnings = "₹0.00" ∧
       (getDashboardData st today yesterday).topServices =
         (sortByUsersDesc st.services).take 3 ∧
       (getDashboardData st today yesterday).serverCount = st.servers.length ∧
       (getDashboardData st today yesterday).serviceCount = st.services.length) := by
  refine ⟨getDashboardData_total st today yesterday, ?_, ?_⟩
  · exact getDashboardData_fallback_of_fail st today yesterday
  · rintro ⟨hc, hq, hbot⟩
    have hok := getDashboardData_ok st today yesterday hc hq
    have hzero : getBotStats ⟨st.connected, st.users, st.botQueryFails⟩ today yesterday =
        zeroStats :=
      getBotStats_zero_of_fail _ _ _ (Or.inr hbot)
    have happ : ("₹" ++ "0.00" : String) = "₹0.00" := rfl
    rw [hok]
    simp [dashOk, hzero, zeroStats, toFixed2Str_zero, happ]

/-- A store whose connection was never established. -/
def disconnectedSiteStore : SiteStore :=
  ⟨false, [], fun _ => false, [], [], fun _ => false⟩

/-- Witness for C5 (amended): the disconnected store yields the fallback
snapshot; the degraded store (bot read failed, own reads fine) yields zero
metrics with the top-services query still answered. -/
theorem getDashboardData_degradation_witness :
    getDashboardData disconnectedSiteStore 0 0 = fallbackDashStats ∧
    (getDashboardData dashDegradedStore 0 0).totalUsers = 0 ∧
    (getDashboardData dashDegradedStore 0 0).topServices =
      (sortByUsersDesc dashDegradedStore.services).take 3 := by
  refine ⟨(getDashboardData_degradation disconnectedSiteStore 0 0).2.1 (Or.inl rfl), ?_, ?_⟩
  · exact ((getDashboardData_degradation dashDegradedStore 0 0).2.2
      ⟨rfl, fun i _ => rfl, 0, by omega, rfl⟩).1
  · exact ((getDashboardData_degradation dashDegradedStore 0 0).2.2
      ⟨rfl, fun i _ => rfl, 0, by omega, rfl⟩).2.2.2.2.2.1
